import Mathlib

/-!
Shallow embedding of the MatchDB shell's session/token lifecycle and modal
sequencing logic, translated from the TypeScript source:

* `src/store/authSlice.ts` — Redux auth state, localStorage persistence,
  reducers (`logout`, `expireSession`, `updatePlan`, `setAuthFromOAuth`) and
  async-thunk case reducers (`login`, `register`, `refreshUserData`,
  `refreshAuthToken`, `deleteAccount`).
* `src/components/JobsAppWrapper.tsx` — the verify-on-mount effect
  (`verifyToken`) with its `verifyRan` re-entrancy guard, the silent-refresh
  path, session expiry and role-based redirect.
* `ShellLayout` — pricing-modal open/close handlers, the chained
  profile-open message with its fixed delay, and the post-checkout
  redirect effect.
* `src/App.tsx` (`LoginModal`) — the post-auth modal flow effect.

Network responses are passed in explicitly: an `HttpResult` is either `ok`
with the response payload or `err` with the optional HTTP status code
(`none` models a network failure, where `err.response?.status` is
undefined in the source).
-/

namespace MatchDB

/-- `user_type` field of the user record: `"candidate" | "vendor"`. -/
inductive Role
  | candidate
  | vendor
deriving DecidableEq, Repr

/-- `plan` field: `"free" | "basic" | "pro" | "pro_plus"`. -/
inductive Plan
  | free
  | basic
  | pro
  | pro_plus
deriving DecidableEq, Repr

/-- The `User` interface of `authSlice.ts`. `membership_config` is the
nullable visibility grant (job type → subtypes). -/
structure User where
  id : String
  email : String
  first_name : String
  last_name : String
  username : String
  user_type : Role
  membership_config : Option (List (String × List String))
  has_purchased_visibility : Bool
  plan : Plan
  created_at : Option String
  updated_at : Option String
deriving DecidableEq, Repr

/-- The `AuthState` interface of `authSlice.ts`. -/
structure AuthState where
  user : Option User
  token : Option String
  refresh : Option String
  loading : Bool
  error : Option String
  sessionExpiredUserType : Option Role
deriving DecidableEq, Repr

/-- The three independent localStorage keys used for persistence:
`matchdb_token`, `matchdb_refresh`, `matchdb_user` (the user record is
stored JSON-serialized; we model the deserialized value). -/
structure Storage where
  matchdb_token : Option String
  matchdb_refresh : Option String
  matchdb_user : Option User
deriving DecidableEq, Repr

/-- Result of an HTTP call: `ok` with the payload, or `err` with
`err.response?.status` (`none` = network failure / no response). -/
inductive HttpResult (α : Type)
  | ok (a : α)
  | err (status : Option Nat)
deriving DecidableEq, Repr

/-- Payload of a successful `/api/auth/login` or `/api/auth/register`
response: `{ user, access, refresh }`. -/
structure LoginPayload where
  user : User
  access : String
  refresh : String
deriving DecidableEq, Repr

/-- Reducer `logout`: clears the three state fields plus
`sessionExpiredUserType` and removes the three localStorage keys. -/
def logout (st : AuthState) (sto : Storage) : AuthState × Storage :=
  ({ st with user := none, token := none, refresh := none,
             sessionExpiredUserType := none },
   { sto with matchdb_token := none, matchdb_refresh := none,
              matchdb_user := none })

/-- Reducer `expireSession`: records the expiring user's role in
`sessionExpiredUserType`, clears the three state fields and removes the
three localStorage keys. -/
def expireSession (r : Role) (st : AuthState) (sto : Storage) :
    AuthState × Storage :=
  ({ st with sessionExpiredUserType := some r, user := none, token := none,
             refresh := none },
   { sto with matchdb_token := none, matchdb_refresh := none,
              matchdb_user := none })

/-- Case reducer `login.fulfilled` (identical to `register.fulfilled`):
stores user, access and refresh in state and in the three localStorage
keys. -/
def loginFulfilled (p : LoginPayload) (st : AuthState) (sto : Storage) :
    AuthState × Storage :=
  ({ st with loading := false, user := some p.user, token := some p.access,
             refresh := some p.refresh },
   { sto with matchdb_token := some p.access,
              matchdb_refresh := some p.refresh,
              matchdb_user := some p.user })

/-- Case reducer `login.rejected`: records the rejection message in
`state.error`. -/
def loginRejected (msg : String) (st : AuthState) : AuthState :=
  { st with loading := false, error := some msg }

/-- Case reducer `refreshUserData.fulfilled`: replaces the cached user
record wholesale in state and in `matchdb_user`. -/
def refreshUserDataFulfilled (u : User) (st : AuthState) (sto : Storage) :
    AuthState × Storage :=
  ({ st with user := some u }, { sto with matchdb_user := some u })

/-- Case reducer `refreshAuthToken.fulfilled`: stores the new access token
in state and in `matchdb_token` only; refresh token and user untouched. -/
def refreshAuthTokenFulfilled (access : String) (st : AuthState)
    (sto : Storage) : AuthState × Storage :=
  ({ st with token := some access }, { sto with matchdb_token := some access })

/-- Dispatching the `refreshUserData` thunk against a given server
response. On success the `fulfilled` case reducer runs; on any failure the
thunk rejects with the constant message
`"Failed to refresh user data"` (its catch ignores the error entirely),
and — since `extraReducers` registers no `refreshUserData.rejected`
case — the state and storage are left unchanged. The third component is
the rejection payload handed back to the dispatching caller. -/
def refreshUserDataDispatch (st : AuthState) (sto : Storage)
    (resp : HttpResult User) : AuthState × Storage × Option String :=
  match resp with
  | .ok u =>
      let r := refreshUserDataFulfilled u st sto
      (r.1, r.2, none)
  | .err _ => (st, sto, some "Failed to refresh user data")

/-- Dispatching the `refreshAuthToken` thunk: success runs the `fulfilled`
case reducer; failure rejects with a constant message, with no
`rejected` case reducer registered. -/
def refreshAuthTokenDispatch (st : AuthState) (sto : Storage)
    (resp : HttpResult String) : AuthState × Storage × Option String :=
  match resp with
  | .ok access =>
      let r := refreshAuthTokenFulfilled access st sto
      (r.1, r.2, none)
  | .err _ => (st, sto, some "Session expired. Please log in again.")

/-- The two role-specific re-authentication entry points that
`JobsAppWrapper` navigates to on expiry: `"/jobs/vendor"` and
`"/jobs/candidate"`. -/
inductive Redirect
  | jobsVendor
  | jobsCandidate
deriving DecidableEq, Repr

/-- The two network calls the verify-on-mount effect can make:
`GET /api/auth/verify` with the stored token, and
`POST /api/auth/refresh` with the stored refresh token. -/
structure NetEnv where
  verifyResp : HttpResult Unit
  refreshResp : HttpResult String
deriving DecidableEq, Repr

/-- The status test of `JobsAppWrapper.verifyToken`:
`status === 401 || status === 403` (auth-class rejection). A `none`
status models a network error (no response object). -/
def isAuthStatus : Option Nat → Bool
  | some 401 => true
  | some 403 => true
  | _ => false

/-- The expiry tail of `verifyToken`: `expiredType = user?.user_type ??
"candidate"`, then `expireSession(expiredType)` and a role-matched
`navigate`. -/
def expireAndRedirect (st : AuthState) (sto : Storage) :
    AuthState × Storage × Option Redirect :=
  let expiredType := match st.user with
    | some u => u.user_type
    | none => Role.candidate
  let r := expireSession expiredType st sto
  (r.1, r.2,
   some (if expiredType = Role.vendor then Redirect.jobsVendor
         else Redirect.jobsCandidate))

/-- Body of the `verifyToken` async function in `JobsAppWrapper.tsx`:
verify the stored JWT; on 401/403 attempt the silent refresh (when a
refresh token exists) and on refresh failure expire the session and
redirect; on any non-auth error do nothing. The third component is the
`navigate` target, if any. -/
def verifyToken (env : NetEnv) (st : AuthState) (sto : Storage) :
    AuthState × Storage × Option Redirect :=
  match env.verifyResp with
  | .ok _ => (st, sto, none)
  | .err status =>
      if isAuthStatus status then
        match st.refresh with
        | some _ =>
            match env.refreshResp with
            | .ok access =>
                let r := refreshAuthTokenFulfilled access st sto
                (r.1, r.2, none)
            | .err _ => expireAndRedirect st sto
        | none => expireAndRedirect st sto
      else (st, sto, none)

/-- The mount effect of `JobsAppWrapper`: skip when no token is stored;
skip when the `verifyRan` ref is already set; otherwise set the ref and
run `verifyToken`. Returns the new ref value, the number of
verification round-trips issued, and `verifyToken`'s outcome. -/
def verifyOnMount (env : NetEnv) (ran : Bool) (st : AuthState)
    (sto : Storage) : Bool × Nat × (AuthState × Storage × Option Redirect) :=
  match st.token with
  | none => (ran, 0, (st, sto, none))
  | some _ =>
      if ran then (ran, 0, (st, sto, none))
      else (true, 1, verifyToken env st sto)

/-- Tab of the pricing modal: `"vendor" | "candidate"`. -/
inductive Tab
  | vendor
  | candidate
deriving DecidableEq, Repr

/-- The pricing-modal state of `ShellLayout`: `pricingModalOpen`,
`pricingModalTab`, and `pendingProfileOpen` (the chain-to-profile
flag set by `triggerProfile`). -/
structure ShellState where
  pricingModalOpen : Bool
  pricingModalTab : Tab
  pendingProfileOpen : Bool
deriving DecidableEq, Repr

/-- Window `CustomEvent` messages exchanged between shell and module that
this development models. -/
inductive EventMsg
  | pricingClosed
  | openProfile
  | openPricing (tab : Tab) (triggerProfile : Bool)
deriving DecidableEq, Repr

/-- A published message together with the delay (in milliseconds) after
which it is dispatched; delay `0` means synchronously within the
handler. -/
structure Emit where
  delayMs : Nat
  msg : EventMsg
deriving DecidableEq, Repr

/-- `handleClosePricing` of `ShellLayout`: close the modal, dispatch
`matchdb:pricingClosed` synchronously, and when `pendingProfileOpen` is
set clear it and schedule a single `matchdb:openProfile` dispatch in a
`setTimeout(..., 80)`. -/
def handleClosePricing (s : ShellState) : ShellState × List Emit :=
  if s.pendingProfileOpen then
    ({ s with pricingModalOpen := false, pendingProfileOpen := false },
     [⟨0, EventMsg.pricingClosed⟩, ⟨80, EventMsg.openProfile⟩])
  else
    ({ s with pricingModalOpen := false }, [⟨0, EventMsg.pricingClosed⟩])

/-- The user actions in `ShellLayout` that close the pricing modal: a
click on the dimmed overlay backdrop, and the ✕ button in the title bar.
Both are wired to `handleClosePricing`. (The `onClose` prop that
`ShellLayout` passes to `PricingPage` is accepted by `PricingPage` but
never invoked anywhere in it, so it is not a reachable close path.) -/
inductive PricingCloseAction
  | overlayClick
  | titleBarClose
deriving DecidableEq, Repr

/-- Closing the pricing modal through any reachable close action runs
`handleClosePricing`. -/
def closePricing (_a : PricingCloseAction) (s : ShellState) :
    ShellState × List Emit :=
  handleClosePricing s

/-- The `detail` payload of a `matchdb:openPricing` event. -/
structure OpenPricingDetail where
  tab : Option Tab
  triggerProfile : Bool
deriving DecidableEq, Repr

/-- `handleOpenPricing` of `ShellLayout`: set the tab (`"candidate"` only
when the detail says so, else `"vendor"`), set `pendingProfileOpen` when
`triggerProfile` is set, and open the modal. -/
def handleOpenPricing (d : OpenPricingDetail) (s : ShellState) : ShellState :=
  { s with
    pricingModalTab :=
      if d.tab = some Tab.candidate then Tab.candidate else Tab.vendor,
    pendingProfileOpen :=
      if d.triggerProfile then true else s.pendingProfileOpen,
    pricingModalOpen := true }

/-- A browser URL as the shell reads it: a path plus query parameters.
`getParam` models `new URLSearchParams(window.location.search).get(k)`. -/
structure Url where
  path : String
  query : List (String × String)
deriving DecidableEq, Repr

/-- `URLSearchParams.get`: first value bound to the key, else null. -/
def getParam (u : Url) (k : String) : Option String :=
  (u.query.find? (fun p => p.1 = k)).map (fun p => p.2)

/-- `window.history.replaceState({}, "", window.location.pathname)`: the
URL is reduced to its path, dropping every query parameter. -/
def stripQuery (u : Url) : Url :=
  { u with query := [] }

/-- Outcome of the post-checkout redirect effect: the new shell state, how
many `refreshUserData` dispatches were issued, and the resulting URL. -/
structure CheckoutEffectResult where
  shell : ShellState
  refreshUserDataCalls : Nat
  url : Url
deriving DecidableEq, Repr

/-- The post-checkout redirect effect of `ShellLayout`: inspect
`success`, `candidate_success` and `canceled` markers; on any marker pick
the tab (`candidate_success` forces the candidate tab, otherwise the
cached user's role decides), on `candidate_success` dispatch
`refreshUserData` (when a token is stored) and set `pendingProfileOpen`,
open the pricing modal, and strip the query string from the URL. With no
marker present nothing happens. -/
def postCheckoutEffect (u : Url) (auth : AuthState) (s : ShellState) :
    CheckoutEffectResult :=
  let isSuccess := getParam u "success" == some "true"
  let isCandSucc := getParam u "candidate_success" == some "true"
  let isCanceled := getParam u "canceled" == some "true"
  if isSuccess || isCandSucc || isCanceled then
    let tab :=
      if isCandSucc then Tab.candidate
      else if auth.user.map User.user_type == some Role.candidate then
        Tab.candidate
      else Tab.vendor
    let refreshCalls :=
      if isCandSucc then (if auth.token.isSome then 1 else 0) else 0
    let pending := if isCandSucc then true else s.pendingProfileOpen
    { shell := { s with pricingModalTab := tab,
                        pendingProfileOpen := pending,
                        pricingModalOpen := true },
      refreshUserDataCalls := refreshCalls,
      url := stripQuery u }
  else
    { shell := s, refreshUserDataCalls := 0, url := u }

/-- The modal-flow state of `LoginModal` in `App.tsx` that the post-auth
effect reads and writes: the `open` flag and the `showUpgrade` flag (the
upgrade prompt is the only modal variant that renders a skip action). -/
structure LoginModalState where
  modalOpen : Bool
  showUpgrade : Bool
deriving DecidableEq, Repr

/-- The post-auth effect of `LoginModal` (`if (token && open &&
!showUpgrade)`): a candidate without `has_purchased_visibility` closes
the modal and dispatches `matchdb:openPricing` with
`{ tab: "candidate", triggerProfile: true }`; a candidate with the flag
just closes the modal; otherwise a free-plan user gets the upgrade
prompt (`showUpgrade`), and anyone else just closes the modal. Returns
the new modal state and the dispatched window events. -/
def postAuthEffect (auth : AuthState) (s : LoginModalState) :
    LoginModalState × List EventMsg :=
  if auth.token.isSome && s.modalOpen && !s.showUpgrade then
    if auth.user.map User.user_type == some Role.candidate then
      if auth.user.map User.has_purchased_visibility == some true then
        ({ s with modalOpen := false }, [])
      else
        ({ s with modalOpen := false },
         [EventMsg.openPricing Tab.candidate true])
    else if auth.user.map User.plan == some Plan.free then
      ({ s with showUpgrade := true }, [])
    else
      ({ s with modalOpen := false }, [])
  else (s, [])

/-- Delivery of shell-bound window events to `ShellLayout`'s registered
listener: `matchdb:openPricing` runs `handleOpenPricing`; the other
messages modelled here have no shell-side listener. -/
def applyShellEvents (es : List EventMsg) (s : ShellState) : ShellState :=
  es.foldl
    (fun acc m =>
      match m with
      | EventMsg.openPricing tab trig =>
          handleOpenPricing ⟨some tab, trig⟩ acc
      | _ => acc)
    s

/-- A concrete user record used by the witness theorems. -/
def sampleUser : User :=
  { id := "u1", email := "u1@example.com", first_name := "Ada",
    last_name := "L", username := "ada", user_type := Role.candidate,
    membership_config := none, has_purchased_visibility := false,
    plan := Plan.free, created_at := none, updated_at := none }

/-- A concrete vendor user record used by the witness theorems. -/
def sampleVendor : User :=
  { sampleUser with
    id := "v1"
    username := "ven"
    user_type := Role.vendor }

/-- A concrete authenticated state used by the witness theorems. -/
def sampleAuthState : AuthState :=
  { user := some sampleUser, token := some "tok0", refresh := some "ref0",
    loading := false, error := none, sessionExpiredUserType := none }

/-- A concrete storage snapshot matching `sampleAuthState`. -/
def sampleStorage : Storage :=
  { matchdb_token := some "tok0", matchdb_refresh := some "ref0",
    matchdb_user := some sampleUser }

/-- C1: For every stored session whose access token is rejected by the
verify endpoint with an authentication-class status (401/403) and whose
refresh token is accepted by the refresh endpoint, the verify-on-mount
operation ends with a new access token (differing from the original)
stored in state and persistence, while the refresh token and the cached
user record are unchanged and the user remains authenticated. -/
theorem verify_rejected_refresh_ok_mints_new_token
    (env : NetEnv) (st : AuthState) (sto : Storage)
    (t r newAccess : String) (u : User) (status : Option Nat)
    (htok : st.token = some t) (href : st.refresh = some r)
    (husr : st.user = some u)
    (hverify : env.verifyResp = HttpResult.err status)
    (hstatus : isAuthStatus status = true)
    (hrefresh : env.refreshResp = HttpResult.ok newAccess)
    (hnew : newAccess ≠ t) :
    (verifyToken env st sto).1.token = some newAccess ∧
    (verifyToken env st sto).1.token ≠ st.token ∧
    (verifyToken env st sto).2.1.matchdb_token = some newAccess ∧
    (verifyToken env st sto).1.refresh = st.refresh ∧
    (verifyToken env st sto).2.1.matchdb_refresh = sto.matchdb_refresh ∧
    (verifyToken env st sto).1.user = st.user ∧
    (verifyToken env st sto).2.1.matchdb_user = sto.matchdb_user ∧
    (verifyToken env st sto).1.user.isSome = true ∧
    (verifyToken env st sto).2.2 = none := by
  simp [verifyToken, refreshAuthTokenFulfilled, hverify, hstatus, href,
        hrefresh, htok, husr, hnew]

/-- C1 witness: the theorem applied to a concrete rejected-then-refreshed
session. -/
theorem verify_rejected_refresh_ok_mints_new_token_witness :
    (verifyToken ⟨HttpResult.err (some 401), HttpResult.ok "tok1"⟩
        sampleAuthState sampleStorage).1.token = some "tok1" :=
  (verify_rejected_refresh_ok_mints_new_token
    ⟨HttpResult.err (some 401), HttpResult.ok "tok1"⟩
    sampleAuthState sampleStorage "tok0" "ref0" "tok1" sampleUser
    (some 401) rfl rfl rfl rfl (by decide) rfl (by decide)).1

/-- C2: For every stored session where both the access-token verification
and the silent refresh fail with authentication-class errors, the
verify-on-mount operation expires the session: user, access token and
refresh token become absent in state and in all three persisted keys, the
pre-expiry role is recorded, and the emitted redirect target matches that
role (vendor to the vendor entry point, candidate to the candidate entry
point). -/
theorem verify_and_refresh_rejected_expires_session
    (env : NetEnv) (st : AuthState) (sto : Storage)
    (t r : String) (u : User) (status rs : Option Nat)
    (htok : st.token = some t) (href : st.refresh = some r)
    (husr : st.user = some u)
    (hverify : env.verifyResp = HttpResult.err status)
    (hstatus : isAuthStatus status = true)
    (hrefresh : env.refreshResp = HttpResult.err rs) :
    (verifyToken env st sto).1.user = none ∧
    (verifyToken env st sto).1.token = none ∧
    (verifyToken env st sto).1.refresh = none ∧
    (verifyToken env st sto).2.1.matchdb_token = none ∧
    (verifyToken env st sto).2.1.matchdb_refresh = none ∧
    (verifyToken env st sto).2.1.matchdb_user = none ∧
    (verifyToken env st sto).1.sessionExpiredUserType = some u.user_type ∧
    (u.user_type = Role.vendor →
      (verifyToken env st sto).2.2 = some Redirect.jobsVendor) ∧
    (u.user_type = Role.candidate →
      (verifyToken env st sto).2.2 = some Redirect.jobsCandidate) := by
  cases hu : u.user_type <;>
    simp [verifyToken, expireAndRedirect, expireSession, hverify, hstatus,
          href, hrefresh, husr, hu]

/-- C2 witness: the theorem applied to a concrete session with both
tokens rejected. -/
theorem verify_and_refresh_rejected_expires_session_witness :
    (verifyToken ⟨HttpResult.err (some 401), HttpResult.err (some 401)⟩
        sampleAuthState sampleStorage).1.sessionExpiredUserType =
      some sampleUser.user_type :=
  (verify_and_refresh_rejected_expires_session
    ⟨HttpResult.err (some 401), HttpResult.err (some 401)⟩
    sampleAuthState sampleStorage "tok0" "ref0" sampleUser
    (some 401) (some 401) rfl rfl rfl rfl (by decide) rfl).2.2.2.2.2.2.1

/-- C3: For every stored session, a verification failure with any
non-authentication error (network failure, timeout, or server 5xx)
leaves session state, storage and redirect completely untouched. -/
theorem verify_transient_error_leaves_session_untouched
    (env : NetEnv) (st : AuthState) (sto : Storage) (status : Option Nat)
    (hverify : env.verifyResp = HttpResult.err status)
    (hstatus : isAuthStatus status = false) :
    verifyToken env st sto = (st, sto, none) := by
  simp [verifyToken, hverify, hstatus]

/-- C3 witness: the theorem applied to a concrete 500 response. -/
theorem verify_transient_error_leaves_session_untouched_witness :
    verifyToken ⟨HttpResult.err (some 500), HttpResult.err none⟩
        sampleAuthState sampleStorage =
      (sampleAuthState, sampleStorage, none) :=
  verify_transient_error_leaves_session_untouched
    ⟨HttpResult.err (some 500), HttpResult.err none⟩
    sampleAuthState sampleStorage (some 500) rfl (by decide)

/-- C10: For every session expiry triggered while no user record is
cached, the expiry path still completes: the recorded expired role
defaults to candidate and the redirect target is the candidate
re-authentication entry point. -/
theorem expiry_without_cached_user_defaults_to_candidate
    (env : NetEnv) (st : AuthState) (sto : Storage) (status rs : Option Nat)
    (husr : st.user = none)
    (hverify : env.verifyResp = HttpResult.err status)
    (hstatus : isAuthStatus status = true)
    (hrefresh : env.refreshResp = HttpResult.err rs) :
    (verifyToken env st sto).1.sessionExpiredUserType = some Role.candidate ∧
    (verifyToken env st sto).2.2 = some Redirect.jobsCandidate := by
  cases hr : st.refresh <;>
    simp [verifyToken, expireAndRedirect, expireSession, hverify, hstatus,
          hr, hrefresh, husr]

/-- C10 witness: the theorem applied to a concrete session with no cached
user record. -/
theorem expiry_without_cached_user_defaults_to_candidate_witness :
    (verifyToken ⟨HttpResult.err (some 403), HttpResult.err (some 401)⟩
        { sampleAuthState with user := none } sampleStorage).2.2 =
      some Redirect.jobsCandidate :=
  (expiry_without_cached_user_defaults_to_candidate
    ⟨HttpResult.err (some 403), HttpResult.err (some 401)⟩
    { sampleAuthState with user := none } sampleStorage
    (some 403) (some 401) rfl rfl (by decide) rfl).2

/-- C7: For every mounted session with a stored access token, invoking
the verify-on-mount operation twice in immediate succession (same mount
lifecycle, so the second invocation sees the ref set by the first)
performs exactly one verification round-trip, and the second invocation
is a no-op. -/
theorem verifyOnMount_twice_one_roundtrip
    (env env2 : NetEnv) (st : AuthState) (sto : Storage)
    (htok : st.token.isSome = true) :
    (verifyOnMount env false st sto).2.1 = 1 ∧
    verifyOnMount env2 (verifyOnMount env false st sto).1 st sto =
      (true, 0, (st, sto, none)) ∧
    (verifyOnMount env false st sto).2.1 +
      (verifyOnMount env2 (verifyOnMount env false st sto).1 st sto).2.1
      = 1 := by
  obtain ⟨t, ht⟩ := Option.isSome_iff_exists.mp htok
  simp [verifyOnMount, ht]

/-- C7 witness: the theorem applied to a concrete mounted session. -/
theorem verifyOnMount_twice_one_roundtrip_witness :
    (verifyOnMount ⟨HttpResult.ok (), HttpResult.err none⟩ false
        sampleAuthState sampleStorage).2.1 = 1 :=
  (verifyOnMount_twice_one_roundtrip
    ⟨HttpResult.ok (), HttpResult.err none⟩
    ⟨HttpResult.ok (), HttpResult.err none⟩
    sampleAuthState sampleStorage rfl).1

/-- C8: For every successful login followed by a sign-out, the final
persisted state contains no access token, no refresh token and no user
record under any of the three storage keys, and the in-memory session
holds none of the three fields. -/
theorem login_then_signOut_round_trips_to_empty
    (st : AuthState) (sto : Storage) (p : LoginPayload) :
    (logout (loginFulfilled p st sto).1 (loginFulfilled p st sto).2).1.user
      = none ∧
    (logout (loginFulfilled p st sto).1 (loginFulfilled p st sto).2).1.token
      = none ∧
    (logout (loginFulfilled p st sto).1 (loginFulfilled p st sto).2).1.refresh
      = none ∧
    (logout (loginFulfilled p st sto).1
        (loginFulfilled p st sto).2).2.matchdb_token = none ∧
    (logout (loginFulfilled p st sto).1
        (loginFulfilled p st sto).2).2.matchdb_refresh = none ∧
    (logout (loginFulfilled p st sto).1
        (loginFulfilled p st sto).2).2.matchdb_user = none := by
  simp [logout, loginFulfilled]

/-- C9 counterexample: dispatching `refreshUserData` against a concrete
authenticated session when the server answers with a 401
authentication-invalid status leaves state and storage exactly unchanged
and rejects with the same constant message a pure network failure
produces — the authentication-invalid result is neither surfaced in
state nor distinguishable from a transport failure, refuting the claim
that no failure of this operation is silently swallowed. -/
theorem refreshUserData_auth_error_swallowed_counterexample :
    refreshUserDataDispatch sampleAuthState sampleStorage
        (HttpResult.err (some 401)) =
      (sampleAuthState, sampleStorage, some "Failed to refresh user data") ∧
    refreshUserDataDispatch sampleAuthState sampleStorage
        (HttpResult.err (some 401)) =
      refreshUserDataDispatch sampleAuthState sampleStorage
        (HttpResult.err none) :=
  ⟨rfl, rfl⟩

/-- C9 (amended): every failure of the user-record refresh operation —
including a 401/403 authentication-invalid response — leaves the auth
state and all persisted keys unchanged and rejects with one constant
message independent of the failure class; the thunk registers no
rejected-case reducer, so the failure is silently swallowed rather than
surfaced or escalated. -/
theorem refreshUserData_failure_is_constant_and_stateless
    (st : AuthState) (sto : Storage) (status : Option Nat) :
    refreshUserDataDispatch st sto (HttpResult.err status) =
      (st, sto, some "Failed to refresh user data") :=
  rfl

/-- C4: For every way the pricing modal is closed while its
chain-to-profile flag is set — every reachable close action, including
the explicit title-bar close — exactly one `openProfile` message is
published, and it is published only after the modal has closed: the
modal state flips to closed synchronously while the `openProfile`
dispatch carries the fixed 80 ms delay, and no zero-delay (synchronous)
emission is an `openProfile`. -/
theorem closePricing_chained_publishes_one_profile_open
    (a : PricingCloseAction) (s : ShellState)
    (hpend : s.pendingProfileOpen = true) :
    (closePricing a s).1.pricingModalOpen = false ∧
    (closePricing a s).1.pendingProfileOpen = false ∧
    ((closePricing a s).2.filter
        (fun e => e.msg == EventMsg.openProfile)).length = 1 ∧
    (∀ e ∈ (closePricing a s).2,
      e.msg = EventMsg.openProfile → e.delayMs = 80) ∧
    (∀ e ∈ (closePricing a s).2,
      e.delayMs = 0 → e.msg ≠ EventMsg.openProfile) := by
  simp [closePricing, handleClosePricing, hpend]

/-- C4 witness: the theorem applied to the explicit title-bar close of a
concrete chained modal state. -/
theorem closePricing_chained_publishes_one_profile_open_witness :
    ((closePricing PricingCloseAction.titleBarClose
        ⟨true, Tab.candidate, true⟩).2.filter
        (fun e => e.msg == EventMsg.openProfile)).length = 1 :=
  (closePricing_chained_publishes_one_profile_open
    PricingCloseAction.titleBarClose ⟨true, Tab.candidate, true⟩
    rfl).2.2.1

/-- C5: For every user whose authentication succeeds while the
authentication modal is open: a candidate without the visibility
purchase has the modal closed and replaced by the pricing modal on the
candidate tab with the chain-to-profile flag set, with no skip variant
(`showUpgrade` stays unset — the upgrade prompt is the only variant
rendering a skip action); a candidate with the purchase simply has the
modal closed with nothing published. -/
theorem postAuth_candidate_pricing_flow
    (auth : AuthState) (u : User) (lm : LoginModalState) (sh : ShellState)
    (htok : auth.token.isSome = true) (husr : auth.user = some u)
    (hrole : u.user_type = Role.candidate)
    (hopen : lm.modalOpen = true) (hupg : lm.showUpgrade = false) :
    (u.has_purchased_visibility = false →
      (postAuthEffect auth lm).1.modalOpen = false ∧
      (postAuthEffect auth lm).1.showUpgrade = false ∧
      (postAuthEffect auth lm).2 = [EventMsg.openPricing Tab.candidate true] ∧
      (applyShellEvents (postAuthEffect auth lm).2 sh).pricingModalOpen
        = true ∧
      (applyShellEvents (postAuthEffect auth lm).2 sh).pricingModalTab
        = Tab.candidate ∧
      (applyShellEvents (postAuthEffect auth lm).2 sh).pendingProfileOpen
        = true) ∧
    (u.has_purchased_visibility = true →
      (postAuthEffect auth lm).1.modalOpen = false ∧
      (postAuthEffect auth lm).2 = []) := by
  constructor <;> intro hvis <;>
    simp [postAuthEffect, applyShellEvents, handleOpenPricing,
          husr, hrole, htok, hopen, hupg, hvis]

/-- C5 witness: the theorem applied to a concrete fresh candidate without
a visibility purchase. -/
theorem postAuth_candidate_pricing_flow_witness :
    sampleUser.has_purchased_visibility = false ∧
    (postAuthEffect sampleAuthState ⟨true, false⟩).2 =
      [EventMsg.openPricing Tab.candidate true] :=
  ⟨rfl,
   ((postAuth_candidate_pricing_flow sampleAuthState sampleUser
      ⟨true, false⟩ ⟨false, Tab.vendor, false⟩
      rfl rfl rfl rfl rfl).1 rfl).2.2.1⟩

/-- On a URL with no query string every parameter lookup is null. -/
theorem getParam_empty (p k : String) : getParam ⟨p, []⟩ k = none := rfl

/-- C6: For every mount whose URL carries the candidate payment-success
marker, given a stored access token, exactly one `refreshUserData`
dispatch is issued, the query parameters are stripped from the URL, and
the pricing modal opens on the candidate tab with the chain-to-profile
flag set; re-running the effect on the resulting URL (reload or back
navigation) issues no further refresh dispatch and changes nothing. -/
theorem postCheckout_candidate_success_once
    (u : Url) (auth : AuthState) (s : ShellState)
    (hm : getParam u "candidate_success" = some "true")
    (htok : auth.token.isSome = true) :
    (postCheckoutEffect u auth s).refreshUserDataCalls = 1 ∧
    (postCheckoutEffect u auth s).url = stripQuery u ∧
    (postCheckoutEffect u auth s).shell.pricingModalOpen = true ∧
    (postCheckoutEffect u auth s).shell.pricingModalTab = Tab.candidate ∧
    (postCheckoutEffect u auth s).shell.pendingProfileOpen = true ∧
    (postCheckoutEffect (postCheckoutEffect u auth s).url auth
        (postCheckoutEffect u auth s).shell).refreshUserDataCalls = 0 ∧
    (postCheckoutEffect (postCheckoutEffect u auth s).url auth
        (postCheckoutEffect u auth s).shell).shell =
      (postCheckoutEffect u auth s).shell ∧
    (postCheckoutEffect (postCheckoutEffect u auth s).url auth
        (postCheckoutEffect u auth s).shell).url =
      (postCheckoutEffect u auth s).url := by
  simp [postCheckoutEffect, hm, htok, getParam_empty, stripQuery]

/-- C6 witness: the theorem applied to a concrete post-checkout URL. -/
theorem postCheckout_candidate_success_once_witness :
    (postCheckoutEffect
        ⟨"/", [("candidate_success", "true")]⟩ sampleAuthState
        ⟨false, Tab.vendor, false⟩).refreshUserDataCalls = 1 :=
  (postCheckout_candidate_success_once
    ⟨"/", [("candidate_success", "true")]⟩ sampleAuthState
    ⟨false, Tab.vendor, false⟩ rfl rfl).1

end MatchDB
